import Mathlib

/-!
Verification of the decision logic of `freegamehost`:
* `gtx_auto_extend.py` (namespace `Gtx`): session resolver (`ensure_login`),
  navigator (`goto_server_manage`), action confirmer (`click_extend`), cookie
  merging and end-of-run cookie persistence (`main`).
* `renew_freegamehost.py` (namespace `Renew`): email login
  (`login_with_email`) and the ADD 8 HOURS confirmer (`click_add_8_hours`).

The browser/DOM is treated as an opaque external capability: each DOM lookup,
fill or click performed by the scripts is an oracle recorded in a `Page`-like
structure (one Boolean, or one `String → Bool` function per selector family,
reflecting the outcome of the corresponding Playwright call during one run).
The control flow of the Python functions over those oracle answers is
translated directly from the source.  Side effects that matter to the claims
(filling fields, clicking controls) are returned as explicit action traces.
-/

namespace Gtx

/-- Python truthiness of an optional string (`None` and `""` are falsy). -/
def truthy : Option String → Bool
  | none => false
  | some s => decide (s ≠ "")

/-- Visible side effects of the login flow (`page.fill`, `page.click`,
role/text button clicks, `keyboard.press("Enter")`). -/
inductive Action where
  | fill (selector value : String)
  | click (selector : String)
  | clickRole (label : String)
  | clickText (label : String)
  | pressEnter
  deriving DecidableEq, Repr

/-- Oracle for one login attempt of `gtx_auto_extend.py`: the outcome of each
DOM interaction the script performs, by selector/label.  Line numbers refer to
`src/gtx_auto_extend.py`. -/
structure Page where
  /-- `login_path in page.url` right after the initial goto (L221). -/
  urlHasLoginAfterGoto : Bool
  /-- visibility oracle used by the pre-submit `has_captcha` call (L225). -/
  visiblePre : String → Bool
  /-- `page.fill(selector, value)` succeeded (L131). -/
  fillOk : String → String → Bool
  /-- `page.click(selector)` succeeded (L145). -/
  clickOk : String → Bool
  /-- `get_by_role("button", name=label).click()` succeeded (L152). -/
  roleClickOk : String → Bool
  /-- `button:has-text(label)` click succeeded (L157). -/
  textClickOk : String → Bool
  /-- `keyboard.press("Enter")` did not raise (L163). -/
  enterOk : Bool
  /-- visibility oracle after the submission step, used by `has_captcha`
  (L248) and `detect_2fa` (L254 and inside `handle_2fa`). -/
  visiblePost : String → Bool
  /-- the 2FA prompt text locator is visible (L181). -/
  twofaTextVisible : Bool
  /-- the optional `pyotp` import succeeded (L12-L15). -/
  pyotpAvailable : Bool
  /-- `pyotp.TOTP(secret).now()`, an uninterpreted external computation. -/
  totpNow : String → String
  /-- the 2FA wait inside the `handle_2fa` try block did not raise (L209). -/
  wait2faOk : Bool
  /-- `login_path in page.url` at the final check (L264). -/
  urlHasLoginFinal : Bool
  /-- the page content matches `captcha|security|verify you are human|cloudflare`
  case-insensitively (L269). -/
  contentHasChallengeWords : Bool

/-- Selector list of `has_captcha` (L110-L119). -/
def captchaSelectors : List String :=
  ["iframe[src*=\"hcaptcha\"]",
   "iframe[src*=\"recaptcha\"]",
   "iframe[src*=\"challenges.cloudflare.com\"]",
   "[class*=\"cf-turnstile\"]",
   "#cf-chl-widget",
   "input[name=\"cf-turnstile-response\"]",
   "[data-sitekey]",
   "text=/security check|verify you are human|人机验证|验证码/i"]

/-- `has_captcha` (L109-L126): true iff some challenge selector is visible. -/
def has_captcha (vis : String → Bool) : Bool :=
  captchaSelectors.any vis

/-- `find_and_fill` (L128-L135): fill the first selector that accepts the
value; returns success plus the fill that actually happened. -/
def find_and_fill (pg : Page) (selectors : List String) (value : String) :
    Bool × List Action :=
  match selectors.find? (fun s => pg.fillOk s value) with
  | some s => (true, [Action.fill s value])
  | none => (false, [])

/-- The two submit-typed selectors of `try_submit` (L139-L142). -/
def submitTypeSelectors : List String :=
  ["button[type=\"submit\"]", "input[type=\"submit\"]"]

/-- The login-verb labels of `try_submit` (L150). -/
def submitLabels : List String :=
  ["login", "sign in", "verify", "continue", "确认", "登录", "提交"]

/-- `try_submit` (L137-L166): first try submit-typed controls, then per label
a role-named button then a `has-text` button, finally press Enter. -/
def try_submit (pg : Page) : Bool × List Action :=
  match submitTypeSelectors.find? pg.clickOk with
  | some s => (true, [Action.click s])
  | none =>
    match submitLabels.find? (fun l => pg.roleClickOk l || pg.textClickOk l) with
    | some l =>
      (true, [if pg.roleClickOk l then Action.clickRole l else Action.clickText l])
    | none =>
      if pg.enterOk then (true, [Action.pressEnter]) else (false, [])

/-- 2FA input selector candidates (L170-L173 and L199-L202). -/
def twofaSelectors : List String :=
  ["input[name=\"totp\"]", "#totp", "input[name*=\"otp\"]",
   "input[name*=\"2fa\"]", "input[name*=\"token\"]", "input[name*=\"code\"]"]

/-- `detect_2fa` (L168-L185): a 2FA input is visible or the prompt text is. -/
def detect_2fa (pg : Page) : Bool :=
  twofaSelectors.any pg.visiblePost || pg.twofaTextVisible

/-- `handle_2fa` (L187-L213): no 2FA → trivially ok; otherwise require a TOTP
secret and `pyotp`, fill the code into the first accepting selector, submit,
and wait; any failed step yields `False`. -/
def handle_2fa (pg : Page) (totp_secret : Option String) : Bool × List Action :=
  if ¬ detect_2fa pg then (true, [])
  else if ¬ truthy totp_secret then (false, [])
  else if ¬ pg.pyotpAvailable then (false, [])
  else
    match find_and_fill pg twofaSelectors
        (pg.totpNow (((totp_secret.getD "").replace " " ""))) with
    | (false, acts) => (false, acts)
    | (true, acts) =>
      match try_submit pg with
      | (false, acts2) => (false, acts ++ acts2)
      | (true, acts2) =>
        if pg.wait2faOk then (true, acts ++ acts2) else (false, acts ++ acts2)

/-- Email field selector candidates of `ensure_login` (L235). -/
def emailSelectors : List String :=
  ["input[name=\"email\"]", "input[type=\"email\"]", "#email",
   "input[name=\"username\"]"]

/-- Password field selector candidates of `ensure_login` (L238). -/
def passwordSelectors : List String :=
  ["input[name=\"password\"]", "input[type=\"password\"]", "#password"]

/-- Final still-on-login-page check of `ensure_login` (L264-L280).  The
invalid-credential regex (L272) only changes the log message, not the result,
so it is not part of the oracle. -/
def finalCheck (pg : Page) (acts : List Action) : String × List Action :=
  if pg.urlHasLoginFinal then
    if pg.contentHasChallengeWords then ("captcha", acts)
    else ("fail", acts)
  else ("ok", acts)

/-- Post-submission tail of `ensure_login` (L248-L280): post-submit challenge
check, optional 2FA handling, then the final URL check. -/
def afterSubmit (pg : Page) (totp_secret : Option String) (acts : List Action) :
    String × List Action :=
  if has_captcha pg.visiblePost then ("captcha", acts)
  else if detect_2fa pg then
    if (handle_2fa pg totp_secret).1 = false then
      ("fail", acts ++ (handle_2fa pg totp_secret).2)
    else finalCheck pg (acts ++ (handle_2fa pg totp_secret).2)
  else finalCheck pg acts

/-- `ensure_login` (L215-L280), returning the status string
(`"ok"` / `"captcha"` / `"fail"`) and the trace of form interactions.
Note that the source calls `try_submit(page)` at L242 and discards its
result: a failed submission attempt does not by itself produce `"fail"`. -/
def ensure_login (pg : Page) (email password totp_secret : Option String) :
    String × List Action :=
  if pg.urlHasLoginAfterGoto = false then ("ok", [])
  else if has_captcha pg.visiblePre then ("captcha", [])
  else if ¬ (truthy email && truthy password) then ("fail", [])
  else if (find_and_fill pg emailSelectors (email.getD "")).1 = false then
    ("fail", [])
  else if (find_and_fill pg passwordSelectors (password.getD "")).1 = false then
    ("fail", (find_and_fill pg emailSelectors (email.getD "")).2)
  else
    afterSubmit pg totp_secret
      ((find_and_fill pg emailSelectors (email.getD "")).2 ++
       (find_and_fill pg passwordSelectors (password.getD "")).2 ++
       (try_submit pg).2)

/-! ### Navigator (`goto_server_manage`, L282-L331) -/

/-- Navigation steps performed by `goto_server_manage`. -/
inductive NavAction where
  | goto (url : String)
  | clickManage (index : Nat)
  | clickNameCard (name : String)
  | clickServerLink (index : Nat)
  deriving DecidableEq, Repr

/-- Oracle for the dashboard page: whether each locator strategy's try block
(wait for visibility, click, wait for load) ran to completion. -/
structure NavPage where
  /-- strategy: `get_by_role("link", name="Manage Server").nth(index)` (L292-L301). -/
  manageOk : Bool
  /-- strategy: server-name card with a Manage control inside (L303-L316). -/
  nameCardOk : Bool
  /-- strategy: `a[href*="/server/"]` at the index (L318-L327). -/
  serverLinkOk : Bool

/-- `goto_server_manage` (L282-L331): an explicit server URL short-circuits;
otherwise the dashboard is loaded and three locator strategies are tried in
order; all failing yields `False`. -/
def goto_server_manage (pg : NavPage) (base_url : String)
    (server_url server_name : Option String) (server_index : Nat) :
    Bool × List NavAction :=
  if truthy server_url then
    (true, [NavAction.goto (server_url.getD "")])
  else
    let acts := [NavAction.goto (base_url ++ "/")]
    if pg.manageOk then (true, acts ++ [NavAction.clickManage server_index])
    else if truthy server_name && pg.nameCardOk then
      (true, acts ++ [NavAction.clickNameCard (server_name.getD "")])
    else if pg.serverLinkOk then
      (true, acts ++ [NavAction.clickServerLink server_index])
    else (false, acts)

/-! ### Action confirmer (`click_extend`, L333-L435)

The post-click classification applies `re.search` with `re.IGNORECASE` to the
combined notification/body text, first with the alternation of
`already_keys`, then with the alternation of `success_keys` (L393-L435).
Each regex is hand-compiled below into an executable search over the
lower-cased character list:

* plain literals (`success`, `72`, `小时`, `已续期`, `已延长`, `已续过`,
  `每天只能续期一次`) become substring tests;
* `a\s*b` patterns (`already\s*extended`, `once\s*per\s*day`) become
  word-sequence searches with a maximal whitespace munch, which is equivalent
  because each following word starts with a non-whitespace character;
* `\bextended\b` becomes a search with word-character boundary checks
  (ASCII `\w`, an adequate approximation here);
* `You have already extended\s*your.*server today` is compiled clause by
  clause, with `.*` ranging over newline-free gaps as in Python `re`. -/

/-- Python `\s` whitespace class (ASCII part). -/
def isSpaceChar (c : Char) : Bool :=
  c = ' ' || c = '\t' || c = '\n' || c = '\r' || c = '\x0b' || c = '\x0c'

/-- ASCII `\w` word-character class. -/
def isWordChar (c : Char) : Bool := c.isAlphanum || c = '_'

/-- `re.IGNORECASE`: compare on the lower-cased text. -/
def lowered (s : String) : List Char := s.toList.map Char.toLower

/-- All start positions (suffixes) of a text, for `re.search` scanning. -/
def tailsOf : List Char → List (List Char)
  | [] => [[]]
  | c :: rest => (c :: rest) :: tailsOf rest

/-- Substring test: some suffix of `hay` starts with `pat`. -/
def containsSub (hay pat : List Char) : Bool :=
  (tailsOf hay).any (fun t => pat.isPrefixOf t)

/-- `containsSub` on the raw (not lower-cased) characters of a string. -/
def containsSubstr (s pat : String) : Bool :=
  containsSub s.toList pat.toList

/-- Match `w₁\s*w₂\s*…\s*wₙ` at the head of `t` (maximal whitespace munch). -/
def matchWordsAt : List (List Char) → List Char → Bool
  | [], _ => true
  | w :: ws, t =>
    w.isPrefixOf t && matchWordsAt ws ((t.drop w.length).dropWhile isSpaceChar)

/-- Search `w₁\s*w₂\s*…\s*wₙ` anywhere in `hay`. -/
def searchWords (hay : List Char) (ws : List (List Char)) : Bool :=
  (tailsOf hay).any (matchWordsAt ws)

/-- No word character just before the match position. -/
def noWordBefore : Option Char → Bool
  | none => true
  | some c => !isWordChar c

/-- No word character just after the match. -/
def noWordAfter : List Char → Bool
  | [] => true
  | c :: _ => !isWordChar c

/-- `\b word \b` matches at the head of `t` given the previous character. -/
def wordHitAt (word : List Char) (prev : Option Char) (t : List Char) : Bool :=
  noWordBefore prev && word.isPrefixOf t && noWordAfter (t.drop word.length)

/-- Search `\b word \b` anywhere, tracking the previous character. -/
def searchWordB (word : List Char) : Option Char → List Char → Bool
  | prev, [] => wordHitAt word prev []
  | prev, c :: rest =>
    wordHitAt word prev (c :: rest) || searchWordB word (some c) rest

/-- `.*pat` at the head of `t`: a newline-free gap followed by `pat`. -/
def dotStarThen (pat : List Char) (t : List Char) : Bool :=
  (List.range (t.length + 1)).any
    (fun k => (t.take k).all (fun c => c != '\n') && pat.isPrefixOf (t.drop k))

/-- Head match for `You have already extended\s*your.*server today`
(lower-cased; the maximal munch for `\s*` is sound since `your` starts with a
non-whitespace character). -/
def matchAlreadyLongAt (t : List Char) : Bool :=
  "you have already extended".toList.isPrefixOf t &&
    (let t2 := (t.drop 25).dropWhile isSpaceChar
     "your".toList.isPrefixOf t2 &&
       dotStarThen "server today".toList (t2.drop 4))

/-- `re.search("|".join(already_keys), combined, re.I)` (L396-L399, L427). -/
def already_match (combined : String) : Bool :=
  searchWords (lowered combined) ["already".toList, "extended".toList] ||
  searchWords (lowered combined) ["once".toList, "per".toList, "day".toList] ||
  containsSub (lowered combined) "已续过".toList ||
  containsSub (lowered combined) "每天只能续期一次".toList ||
  (tailsOf (lowered combined)).any matchAlreadyLongAt

/-- `re.search("|".join(success_keys), combined, re.I)` (L393-L395, L430). -/
def success_match (combined : String) : Bool :=
  searchWordB "extended".toList none (lowered combined) ||
  containsSub (lowered combined) "success".toList ||
  containsSub (lowered combined) "已续期".toList ||
  containsSub (lowered combined) "已延长".toList ||
  containsSub (lowered combined) "72".toList ||
  containsSub (lowered combined) "小时".toList

/-- Post-click text classification of `click_extend` (L427-L435): the
already-done check runs before the success check, else `"unknown"`. -/
def classify_extend (combined : String) : String :=
  if already_match combined then "already"
  else if success_match combined then "extended"
  else "unknown"

/-- Oracle for the server-management page during `click_extend`. -/
structure ExtendPage where
  /-- some locator strategy for the EXTEND 72 HOUR(S) control produced a
  visible element (L343-L368); if none did, the later click raises and the
  function returns `"unknown"`, which the model folds into this flag. -/
  foundVisible : Bool
  /-- `btn.click()` did not raise (L376-L381). -/
  clickOk : Bool
  /-- concatenated text of the notification elements found by the polling
  loop (L400-L419). -/
  noticeText : String
  /-- `page.inner_text("body")[:8000]` (L421-L425). -/
  bodyText : String

/-- `click_extend` (L333-L435): locate + click the extension control, then
classify the combined notification/body text. -/
def click_extend (pg : ExtendPage) : String :=
  if ¬ pg.foundVisible then "unknown"
  else if ¬ pg.clickOk then "unknown"
  else classify_extend (pg.noticeText ++ "\n" ++ pg.bodyText)

/-! ### Cookie merge (`main`, L452-L460) -/

/-- A cookie record; the merge key uses domain, path and name
(`key(c) = (c.get("domain",""), c.get("path","/"), c.get("name",""))`). -/
structure Cookie where
  name : String
  value : String
  domain : String
  path : String
  deriving DecidableEq, Repr

/-- The merge key of L456. -/
def cookieKey (c : Cookie) : String × String × String :=
  (c.domain, c.path, c.name)

/-- One Python-dict insertion `merged[key(c)] = c`: replace in place when the
key is present (keeping its position), otherwise append. -/
def insertCookie (m : List ((String × String × String) × Cookie)) (c : Cookie) :
    List ((String × String × String) × Cookie) :=
  if m.any (fun p => decide (p.1 = cookieKey c)) then
    m.map (fun p => if p.1 = cookieKey c then (cookieKey c, c) else p)
  else m ++ [(cookieKey c, c)]

/-- The cookie merge of L456-L460: build the dict from the cache-file cookies,
then overwrite with each environment-seeded cookie; take the values in
insertion order. -/
def mergeCookies (cached seeded : List Cookie) : List Cookie :=
  (((cached ++ seeded).foldl insertCookie []).map (fun p => p.2))

/-! ### End-of-run flow of `main` (L486-L534) -/

/-- Oracle and inputs for one `main` run. -/
structure MainEnv where
  login : Page
  email : Option String
  password : Option String
  totp : Option String
  nav : NavPage
  baseUrl : String
  serverUrl : Option String
  serverName : Option String
  serverIndex : Nat
  ext : ExtendPage
  /-- `context.cookies()` at the end of the run. -/
  latestCookies : List Cookie
  /-- the `context.cookies()` call did not raise. -/
  cookiesCallOk : Bool

/-- What a run reports and persists. -/
structure MainResult where
  exitCode : Nat
  /-- `some cs` iff `save_cookies` was invoked with `cs`; `none` iff the cache
  file was not written. -/
  savedCookies : Option (List Cookie)
  deriving DecidableEq, Repr

/-- The end-of-run cookie write (L496-L501 and L525-L530): save only when the
`context.cookies()` call succeeds and yields a non-empty list. -/
def endSave (env : MainEnv) : Option (List Cookie) :=
  if env.cookiesCallOk = true ∧ env.latestCookies ≠ [] then
    some env.latestCookies
  else none

/-- The decision flow of `main` after the browser is up (L486-L534):
login failure exits 2 with no cookie write; challenge exits 0 after a cookie
write attempt; navigation failure exits 2 with no cookie write; otherwise the
extend click runs (exit 0 for all three of its outcomes, L514-L522) and the
cookie write attempt happens (L524-L530). -/
def main_run (env : MainEnv) : MainResult :=
  if (ensure_login env.login env.email env.password env.totp).1 = "fail" then
    { exitCode := 2, savedCookies := none }
  else if (ensure_login env.login env.email env.password env.totp).1 = "captcha" then
    { exitCode := 0, savedCookies := endSave env }
  else if (goto_server_manage env.nav env.baseUrl env.serverUrl env.serverName
      env.serverIndex).1 = false then
    { exitCode := 2, savedCookies := none }
  else
    match click_extend env.ext with
    | _ => { exitCode := 0, savedCookies := endSave env }

end Gtx

namespace Renew

/-- Outcome of the `renew_freegamehost.py` login helpers: normal return or a
raised `RuntimeError` with its message. -/
inductive LoginResult where
  | ok
  | err (msg : String)
  deriving DecidableEq, Repr

/-- Oracle for one run of `renew_freegamehost.py`.  Line numbers refer to
`src/renew_freegamehost.py`. -/
structure Page where
  /-- per-selector outcome of `first_visible_locator` waits (L65-L73). -/
  visibleOk : String → Bool
  /-- `"/auth/login" in page.url` after the submit settles (L155). -/
  stillAtLoginAfterSubmit : Bool

/-- Email selector candidates of `login_with_email` (L115-L121). -/
def emailSelectors : List String :=
  ["input[type=\"email\"]", "input[name=\"email\"]",
   "input[autocomplete=\"email\"]", "input[placeholder*=\"mail\" i]",
   "input[placeholder*=\"邮箱\"]"]

/-- Password selector candidates of `login_with_email` (L126-L132). -/
def passwordSelectors : List String :=
  ["input[type=\"password\"]", "input[name=\"password\"]",
   "input[autocomplete=\"current-password\"]",
   "input[placeholder*=\"password\" i]", "input[placeholder*=\"密码\"]"]

/-- Submit control candidates of `login_with_email` (L137-L144). -/
def submitSelectors : List String :=
  ["button[type=\"submit\"]", "button:has-text(\"Login\")",
   "button:has-text(\"Sign in\")", "button:has-text(\"登录\")",
   "button:has-text(\"登入\")", "button:has-text(\"Log in\")"]

/-- `first_visible_locator` (L65-L73): the first selector whose locator
becomes visible within the wait. -/
def first_visible_locator (vis : String → Bool) (selectors : List String) :
    Option String :=
  selectors.find? vis

/-- `login_with_email` (L108-L158): empty credentials or a missing email /
password field raise a `RuntimeError`; after filling and submitting, staying
on `/auth/login` raises too; otherwise the login succeeded. -/
def login_with_email (pg : Page) (email password : String) : LoginResult :=
  if email = "" ∨ password = "" then
    LoginResult.err "FG_EMAIL or FG_PASSWORD is empty for EMAIL login"
  else
    match first_visible_locator pg.visibleOk emailSelectors with
    | none => LoginResult.err "Email input not found on login page."
    | some _ =>
      match first_visible_locator pg.visibleOk passwordSelectors with
      | none => LoginResult.err "Password input not found on login page."
      | some _ =>
        if pg.stillAtLoginAfterSubmit then
          LoginResult.err "Email login failed or blocked (still at /auth/login)."
        else LoginResult.ok

/-- Activations performed by `click_add_8_hours`. -/
inductive A8Action where
  | click
  deriving DecidableEq, Repr

/-- Oracle for the server detail page during `click_add_8_hours`. -/
structure ServerPage where
  /-- the ADD 8 HOURS control became visible within the 3000 ms wait
  (L274-L279). -/
  btnVisible : Bool
  /-- result of `btn.is_enabled()`; `none` means the call raised, which the
  source treats as enabled (L281-L284). -/
  isEnabledResult : Option Bool

/-- `click_add_8_hours` (L263-L306): skip (returning `False`, clicking
nothing) when the button is not visible or reports itself disabled; otherwise
click it and return `True`. -/
def click_add_8_hours (pg : ServerPage) : Bool × List A8Action :=
  if pg.btnVisible then
    if pg.isEnabledResult.getD true then (true, [A8Action.click])
    else (false, [])
  else (false, [])

end Renew

/-! ### Concrete oracle instances used to evaluate the definitions -/

/-- A login page where every DOM interaction fails: still on the login path
after the goto, no challenge marker anywhere, no fill/click succeeds, no 2FA,
still on the login path at the end. -/
def pageAllFalse : Gtx.Page where
  urlHasLoginAfterGoto := true
  visiblePre := fun _ => false
  fillOk := fun _ _ => false
  clickOk := fun _ => false
  roleClickOk := fun _ => false
  textClickOk := fun _ => false
  enterOk := false
  visiblePost := fun _ => false
  twofaTextVisible := false
  pyotpAvailable := false
  totpNow := fun _ => ""
  wait2faOk := false
  urlHasLoginFinal := true
  contentHasChallengeWords := false

/-- A login page where the credential fields accept their values but every
submission path fails, and a Cloudflare challenge widget is visible after the
submission step. -/
def pageC1cex : Gtx.Page :=
  { pageAllFalse with
    fillOk := fun _ _ => true
    visiblePost := fun s => s == "#cf-chl-widget" }

/-- A login page where the credential fields accept their values, every
submission path fails, and no challenge marker ever appears. -/
def pageC1wit : Gtx.Page :=
  { pageAllFalse with fillOk := fun _ _ => true }

/-- A login page showing a CAPTCHA site-key marker before any credentials are
submitted. -/
def pageC4wit : Gtx.Page :=
  { pageAllFalse with visiblePre := fun s => s == "[data-sitekey]" }

/-- A full run in which no credentials are provided and the cookies do not
authenticate, so `ensure_login` fails, while the live session still holds a
non-empty cookie set at the end. -/
def envC2cex : Gtx.MainEnv where
  login := pageAllFalse
  email := none
  password := none
  totp := none
  nav := { manageOk := false, nameCardOk := false, serverLinkOk := false }
  baseUrl := "https://gamepanel2.gtxgaming.co.uk"
  serverUrl := none
  serverName := none
  serverIndex := 0
  ext := { foundVisible := false, clickOk := false, noticeText := "", bodyText := "" }
  latestCookies := [{ name := "session", value := "abc",
                      domain := ".gtxgaming.co.uk", path := "/" }]
  cookiesCallOk := true

/-- A dashboard on which every navigator locator strategy would succeed. -/
def navAllOk : Gtx.NavPage where
  manageOk := true
  nameCardOk := true
  serverLinkOk := true

/-- A renew-script login page on which no locator ever becomes visible. -/
def renewPageNone : Renew.Page where
  visibleOk := fun _ => false
  stillAtLoginAfterSubmit := false

/-- A server detail page whose ADD 8 HOURS button never becomes visible. -/
def serverPageHidden : Renew.ServerPage where
  btnVisible := false
  isEnabledResult := none

/-! ### Claim theorems -/

/-- C1 counterexample: on a page where credential login reaches the
submission step, no submission path is found (`try_submit` returns failure),
and a Cloudflare challenge widget appears after the submission attempt, the
resolver returns `"captcha"`, not `"fail"` — the source discards the result
of `try_submit` (L242) and the post-submit challenge check wins. -/
theorem ensure_login_submit_ignored_cex :
    pageC1cex.urlHasLoginAfterGoto = true ∧
    Gtx.has_captcha pageC1cex.visiblePre = false ∧
    (Gtx.find_and_fill pageC1cex Gtx.emailSelectors "user@example.com").1 = true ∧
    (Gtx.find_and_fill pageC1cex Gtx.passwordSelectors "hunter2").1 = true ∧
    (Gtx.try_submit pageC1cex).1 = false ∧
    (Gtx.ensure_login pageC1cex (some "user@example.com") (some "hunter2") none).1
      = "captcha" := by
  refine ⟨rfl, by decide, by decide, by decide, by decide, by decide⟩

/-- C1 (amended): when credential login reaches the submission step and no
submission path is found, the submission failure itself is ignored; the
resolver returns the fail outcome provided additionally that no challenge
marker is detected after the submission attempt, the browser is still on the
login path at the final check, and the page content carries no challenge
keywords. -/
theorem ensure_login_no_submit_path_fail (pg : Gtx.Page)
    (email pw totp : Option String)
    (hurl : pg.urlHasLoginAfterGoto = true)
    (hpre : Gtx.has_captcha pg.visiblePre = false)
    (hcred : (Gtx.truthy email && Gtx.truthy pw) = true)
    (hfe : (Gtx.find_and_fill pg Gtx.emailSelectors (email.getD "")).1 = true)
    (hfp : (Gtx.find_and_fill pg Gtx.passwordSelectors (pw.getD "")).1 = true)
    (hsub : (Gtx.try_submit pg).1 = false)
    (hpost : Gtx.has_captcha pg.visiblePost = false)
    (hstill : pg.urlHasLoginFinal = true)
    (hcw : pg.contentHasChallengeWords = false) :
    (Gtx.ensure_login pg email pw totp).1 = "fail" := by
  simp only [Gtx.ensure_login, Gtx.afterSubmit, Gtx.finalCheck,
    hurl, hpre, hcred, hfe, hfp, hpost, hstill, hcw]
  simp only [Bool.true_eq_false, if_false, not_true, Bool.false_eq_true,
    if_true, ite_false, ite_true]
  split
  · split
    · rfl
    · simp [hstill, hcw]
  · simp [hstill, hcw]

/-- C1 witness: a concrete page satisfying all hypotheses of the amended
theorem, on which the resolver indeed returns `"fail"`. -/
theorem ensure_login_no_submit_path_fail_witness :
    (Gtx.ensure_login pageC1wit (some "user@example.com") (some "hunter2") none).1
      = "fail" :=
  ensure_login_no_submit_path_fail pageC1wit (some "user@example.com")
    (some "hunter2") none rfl (by decide) (by decide) (by decide) (by decide)
    (by decide) (by decide) rfl rfl

/-- C2 counterexample: a run whose live session ends with a non-empty cookie
set but whose login fails exits with code 2 and never writes the cookie cache
file (`main`, L487-L491 has no save before `sys.exit(2)`). -/
theorem cookies_unsaved_on_login_fail_cex :
    envC2cex.cookiesCallOk = true ∧
    envC2cex.latestCookies ≠ [] ∧
    Gtx.main_run envC2cex
      = { exitCode := 2, savedCookies := none } := by
  refine ⟨rfl, by decide, by decide⟩

/-- C2 (amended): the cookie set is written back to the cache file exactly
when the run gets past login without a hard failure (outcome challenge, or
navigation succeeded — covering success, already-done and indeterminate ends)
and the live session yields a retrievable, non-empty cookie set; on login
failure or navigation failure the run exits without writing. -/
theorem cookie_persistence_characterization (env : Gtx.MainEnv) :
    (Gtx.main_run env).savedCookies =
      (if (Gtx.ensure_login env.login env.email env.password env.totp).1 ≠ "fail"
          ∧ ((Gtx.ensure_login env.login env.email env.password env.totp).1 = "captcha"
             ∨ (Gtx.goto_server_manage env.nav env.baseUrl env.serverUrl
                  env.serverName env.serverIndex).1 = true)
          ∧ env.cookiesCallOk = true ∧ env.latestCookies ≠ []
       then some env.latestCookies else none) := by
  by_cases h1 : (Gtx.ensure_login env.login env.email env.password env.totp).1 = "fail"
  · simp [Gtx.main_run, h1]
  · by_cases h2 : (Gtx.ensure_login env.login env.email env.password env.totp).1 = "captcha"
    · simp [Gtx.main_run, Gtx.endSave, h1, h2]
    · by_cases h3 : (Gtx.goto_server_manage env.nav env.baseUrl env.serverUrl
          env.serverName env.serverIndex).1 = false
      · simp [Gtx.main_run, h1, h2, h3]
      · have h3t : (Gtx.goto_server_manage env.nav env.baseUrl env.serverUrl
            env.serverName env.serverIndex).1 = true := by
          cases hx : (Gtx.goto_server_manage env.nav env.baseUrl env.serverUrl
              env.serverName env.serverIndex).1
          · exact absurd hx h3
          · rfl
        simp [Gtx.main_run, Gtx.endSave, h1, h2, h3t]

/-- C4: a challenge marker detected before any credentials are submitted
short-circuits the resolver: it returns the challenge outcome with an empty
interaction trace, so no email or password field is ever filled in that
attempt. -/
theorem precheck_challenge_short_circuit (pg : Gtx.Page)
    (email pw totp : Option String)
    (hurl : pg.urlHasLoginAfterGoto = true)
    (hcap : Gtx.has_captcha pg.visiblePre = true) :
    Gtx.ensure_login pg email pw totp = ("captcha", []) := by
  simp [Gtx.ensure_login, hurl, hcap]

/-- C4 witness: on a page with a visible `[data-sitekey]` marker the resolver
returns `("captcha", [])`. -/
theorem precheck_challenge_short_circuit_witness :
    Gtx.ensure_login pageC4wit (some "user@example.com") (some "hunter2") none
      = ("captcha", []) :=
  precheck_challenge_short_circuit pageC4wit (some "user@example.com")
    (some "hunter2") none rfl (by decide)

/-- C5: any combined notification/body text that matches the already-done
pattern set and also matches the success pattern set is classified as
already-done — the already-done check precedes the success check. -/
theorem already_check_precedes_success (s : String)
    (h1 : Gtx.already_match s = true)
    (h2 : Gtx.success_match s = true) :
    Gtx.classify_extend s = "already" := by
  simp [Gtx.classify_extend, h1]

/-- C5 witness: a concrete text matching both pattern sets is classified as
already-done. -/
theorem already_check_precedes_success_witness :
    Gtx.classify_extend "already extended success" = "already" :=
  already_check_precedes_success "already extended success"
    (by decide) (by decide)

/-- C6: the classifier maps "You have already extended your server today" to
already-done, "Server extended successfully, +72 hours" to success, and empty
or unrelated text to indeterminate. -/
theorem classify_concrete_examples :
    Gtx.classify_extend "You have already extended your server today" = "already" ∧
    Gtx.classify_extend "Server extended successfully, +72 hours" = "extended" ∧
    Gtx.classify_extend "" = "unknown" ∧
    Gtx.classify_extend "nothing of note here" = "unknown" := by
  refine ⟨by decide, by decide, by decide, by decide⟩

/-- C7: with an explicit management URL supplied, the navigator performs one
direct navigation to that URL and returns success, and its result is
completely independent of the name keyword and the positional index. -/
theorem explicit_url_short_circuit (pg : Gtx.NavPage) (base u : String)
    (name : Option String) (idx : Nat) (hu : u ≠ "") :
    Gtx.goto_server_manage pg base (some u) name idx
      = (true, [Gtx.NavAction.goto u]) ∧
    (∀ name2 idx2, Gtx.goto_server_manage pg base (some u) name2 idx2
      = Gtx.goto_server_manage pg base (some u) name idx) := by
  constructor
  · simp [Gtx.goto_server_manage, Gtx.truthy, hu]
  · intro name2 idx2
    simp [Gtx.goto_server_manage, Gtx.truthy, hu]

/-- C7 witness: on a dashboard where every other strategy would also succeed,
an explicit URL still short-circuits. -/
theorem explicit_url_short_circuit_witness :
    Gtx.goto_server_manage navAllOk "https://gamepanel2.gtxgaming.co.uk"
        (some "https://gamepanel2.gtxgaming.co.uk/server/abc123")
        (some "myserver") 3
      = (true, [Gtx.NavAction.goto "https://gamepanel2.gtxgaming.co.uk/server/abc123"]) :=
  (explicit_url_short_circuit navAllOk "https://gamepanel2.gtxgaming.co.uk"
    "https://gamepanel2.gtxgaming.co.uk/server/abc123"
    (some "myserver") 3 (by decide)).1

/-- C10: when the ADD 8 HOURS button is not visible within its wait, or
reports itself disabled, `click_add_8_hours` returns `False` with an empty
activation trace — the control is never clicked. -/
theorem add8_skips_hidden_or_disabled (pg : Renew.ServerPage)
    (h : pg.btnVisible = false ∨ pg.isEnabledResult = some false) :
    Renew.click_add_8_hours pg = (false, []) := by
  rcases h with h | h
  · simp [Renew.click_add_8_hours, h]
  · cases hv : pg.btnVisible
    · simp [Renew.click_add_8_hours, hv]
    · simp [Renew.click_add_8_hours, hv, h]

/-- C10 witness: a hidden button yields `(false, [])`. -/
theorem add8_skips_hidden_or_disabled_witness :
    Renew.click_add_8_hours serverPageHidden = (false, []) :=
  add8_skips_hidden_or_disabled serverPageHidden (Or.inl rfl)

/-- C8: when the login flow reaches credential entry and the email or the
password field cannot be located, both implementations report an
authentication failure, never a challenge: `ensure_login` returns `"fail"`
(not `"captcha"`), and `login_with_email` raises the corresponding
field-not-found `RuntimeError`. -/
theorem missing_field_yields_fail (pg : Gtx.Page) (email pw totp : Option String)
    (rpg : Renew.Page) (e2 p2 : String)
    (hurl : pg.urlHasLoginAfterGoto = true)
    (hpre : Gtx.has_captcha pg.visiblePre = false)
    (hcred : (Gtx.truthy email && Gtx.truthy pw) = true)
    (hmiss : (Gtx.find_and_fill pg Gtx.emailSelectors (email.getD "")).1 = false ∨
             (Gtx.find_and_fill pg Gtx.passwordSelectors (pw.getD "")).1 = false)
    (he2 : e2 ≠ "") (hp2 : p2 ≠ "")
    (hmiss2 : Renew.first_visible_locator rpg.visibleOk Renew.emailSelectors = none ∨
              Renew.first_visible_locator rpg.visibleOk Renew.passwordSelectors = none) :
    (Gtx.ensure_login pg email pw totp).1 = "fail" ∧
    (Gtx.ensure_login pg email pw totp).1 ≠ "captcha" ∧
    (∃ msg, Renew.login_with_email rpg e2 p2 = Renew.LoginResult.err msg ∧
      (msg = "Email input not found on login page." ∨
       msg = "Password input not found on login page.")) := by
  have hg : (Gtx.ensure_login pg email pw totp).1 = "fail" := by
    rcases hmiss with h | h
    · simp [Gtx.ensure_login, hurl, hpre, hcred, h]
    · by_cases hfe : (Gtx.find_and_fill pg Gtx.emailSelectors (email.getD "")).1 = false
      · simp [Gtx.ensure_login, hurl, hpre, hcred, hfe]
      · simp [Gtx.ensure_login, hurl, hpre, hcred, hfe, h]
  refine ⟨hg, by simp [hg], ?_⟩
  cases he : Renew.first_visible_locator rpg.visibleOk Renew.emailSelectors with
  | none =>
    exact ⟨"Email input not found on login page.",
      by simp [Renew.login_with_email, he2, hp2, he], Or.inl rfl⟩
  | some s =>
    have hpw : Renew.first_visible_locator rpg.visibleOk Renew.passwordSelectors = none := by
      rcases hmiss2 with h | h
      · rw [he] at h; exact absurd h (by simp)
      · exact h
    exact ⟨"Password input not found on login page.",
      by simp [Renew.login_with_email, he2, hp2, he, hpw], Or.inr rfl⟩

/-- C8 witness: on concrete pages where no field locator succeeds, the gtx
resolver returns `"fail"` and the renew login raises the email-field error. -/
theorem missing_field_yields_fail_witness :
    (Gtx.ensure_login pageAllFalse (some "user@example.com") (some "hunter2") none).1
        = "fail" ∧
    (Gtx.ensure_login pageAllFalse (some "user@example.com") (some "hunter2") none).1
        ≠ "captcha" ∧
    (∃ msg, Renew.login_with_email renewPageNone "user@example.com" "hunter2"
        = Renew.LoginResult.err msg ∧
      (msg = "Email input not found on login page." ∨
       msg = "Password input not found on login page.")) :=
  missing_field_yields_fail pageAllFalse (some "user@example.com")
    (some "hunter2") none renewPageNone "user@example.com" "hunter2"
    rfl (by decide) (by decide) (Or.inl (by decide)) (by decide) (by decide)
    (Or.inl (by decide))

/-- Prefixes survive lower-casing when the pattern is already lower-case
invariant. -/
theorem isPrefixOf_map_toLower :
    ∀ (pat t : List Char), pat.map Char.toLower = pat →
      pat.isPrefixOf t = true → pat.isPrefixOf (t.map Char.toLower) = true := by
  intro pat
  induction pat with
  | nil => intro t _ _; simp [List.isPrefixOf]
  | cons p ps ih =>
    intro t hpat hpre
    cases t with
    | nil => simp [List.isPrefixOf] at hpre
    | cons c cs =>
      simp only [List.map, List.cons.injEq] at hpat
      simp only [List.isPrefixOf, Bool.and_eq_true, beq_iff_eq] at hpre ⊢
      refine ⟨?_, ih cs hpat.2 hpre.2⟩
      rw [← hpre.1, hpat.1]

/-- Substring containment survives lower-casing when the pattern is
lower-case invariant. -/
theorem containsSub_map_toLower :
    ∀ (hay pat : List Char), pat.map Char.toLower = pat →
      Gtx.containsSub hay pat = true →
      Gtx.containsSub (hay.map Char.toLower) pat = true := by
  intro hay
  induction hay with
  | nil =>
    intro pat hpat h
    simpa [Gtx.containsSub, Gtx.tailsOf] using h
  | cons c cs ih =>
    intro pat hpat h
    simp only [Gtx.containsSub, Gtx.tailsOf, List.any_cons, Bool.or_eq_true] at h ⊢
    rcases h with h | h
    · exact Or.inl (isPrefixOf_map_toLower pat (c :: cs) hpat h)
    · exact Or.inr (ih pat hpat h)

/-- C9: any combined text containing the substring "72" that matches no
already-done pattern is classified as success, because the bare pattern `72`
is one of the success keywords. -/
theorem bare_72_yields_success (s : String)
    (h72 : Gtx.containsSubstr s "72" = true)
    (hnot : Gtx.already_match s = false) :
    Gtx.classify_extend s = "extended" := by
  have hlow : Gtx.containsSub (Gtx.lowered s) ['7', '2'] = true := by
    have h1 := containsSub_map_toLower s.toList "72".toList (by decide) h72
    simpa [Gtx.lowered] using h1
  have hsucc : Gtx.success_match s = true := by
    simp [Gtx.success_match, hlow]
  simp [Gtx.classify_extend, hnot, hsucc]

/-- C9 witness: an unrelated number containing "72" in otherwise neutral text
is classified as success. -/
theorem bare_72_yields_success_witness :
    Gtx.classify_extend "Port 7200 is open" = "extended" :=
  bare_72_yields_success "Port 7200 is open" (by decide) (by decide)

/-- Membership after a dict insertion: the entry is the inserted one, or an
old entry whose key differs from the inserted key. -/
theorem mem_insertCookie {m : List ((String × String × String) × Gtx.Cookie)}
    {c : Gtx.Cookie} {p : (String × String × String) × Gtx.Cookie}
    (h : p ∈ Gtx.insertCookie m c) :
    p = (Gtx.cookieKey c, c) ∨ (p ∈ m ∧ p.1 ≠ Gtx.cookieKey c) := by
  unfold Gtx.insertCookie at h
  split at h
  · rcases List.mem_map.mp h with ⟨q, hq, hfq⟩
    by_cases hk : q.1 = Gtx.cookieKey c
    · left; rw [← hfq, if_pos hk]
    · right
      rw [← hfq, if_neg hk]
      exact ⟨hq, hk⟩
  · rename_i hany
    rcases List.mem_append.mp h with h | h
    · right
      refine ⟨h, ?_⟩
      intro hk
      have : m.any (fun p => decide (p.1 = Gtx.cookieKey c)) = true :=
        List.any_eq_true.mpr ⟨p, h, by simpa using hk⟩
      exact hany this
    · left; simpa using h

/-- Keys already present survive a dict insertion. -/
theorem keys_mono_insertCookie {m : List ((String × String × String) × Gtx.Cookie)}
    {c : Gtx.Cookie} {k : String × String × String}
    (h : k ∈ m.map (fun p => p.1)) :
    k ∈ (Gtx.insertCookie m c).map (fun p => p.1) := by
  rcases List.mem_map.mp h with ⟨q, hq, hk⟩
  unfold Gtx.insertCookie
  split
  · refine List.mem_map.mpr ⟨if q.1 = Gtx.cookieKey c then (Gtx.cookieKey c, c) else q,
      List.mem_map.mpr ⟨q, hq, rfl⟩, ?_⟩
    split
    · rename_i hqc; rw [← hk, hqc]
    · exact hk
  · exact List.mem_map.mpr ⟨q, List.mem_append.mpr (Or.inl hq), hk⟩

/-- The inserted key is present after a dict insertion. -/
theorem key_mem_insertCookie (m : List ((String × String × String) × Gtx.Cookie))
    (c : Gtx.Cookie) :
    Gtx.cookieKey c ∈ (Gtx.insertCookie m c).map (fun p => p.1) := by
  unfold Gtx.insertCookie
  split
  · rename_i hany
    rcases List.any_eq_true.mp hany with ⟨q, hq, hqk⟩
    have hqk : q.1 = Gtx.cookieKey c := by simpa using hqk
    exact List.mem_map.mpr ⟨(Gtx.cookieKey c, c),
      List.mem_map.mpr ⟨q, hq, by rw [if_pos hqk]⟩, rfl⟩
  · exact List.mem_map.mpr ⟨(Gtx.cookieKey c, c),
      List.mem_append.mpr (Or.inr (by simp)), rfl⟩

/-- Dict insertion preserves distinctness of the stored keys. -/
theorem nodup_insertCookie {m : List ((String × String × String) × Gtx.Cookie)}
    {c : Gtx.Cookie} (h : (m.map (fun p => p.1)).Nodup) :
    ((Gtx.insertCookie m c).map (fun p => p.1)).Nodup := by
  unfold Gtx.insertCookie
  split
  · have hkeys :
        (m.map (fun p => if p.1 = Gtx.cookieKey c then (Gtx.cookieKey c, c) else p)).map
            (fun p => p.1)
          = m.map (fun p => p.1) := by
      rw [List.map_map]
      refine List.map_congr_left ?_
      intro q _
      simp only [Function.comp]
      split
      · rename_i hqc; rw [hqc]
      · rfl
    rw [hkeys]; exact h
  · rename_i hany
    have hnotin : Gtx.cookieKey c ∉ m.map (fun p => p.1) := by
      intro hmem
      rcases List.mem_map.mp hmem with ⟨q, hq, hk⟩
      have : m.any (fun p => decide (p.1 = Gtx.cookieKey c)) = true :=
        List.any_eq_true.mpr ⟨q, hq, by simpa using hk⟩
      exact hany this
    rw [List.map_append]
    simp only [List.map_cons, List.map_nil]
    rw [List.nodup_append]
    exact ⟨h, List.nodup_singleton _, by simpa using hnotin⟩

/-- Dict insertion preserves the invariant that each entry is stored under
the key of its cookie. -/
theorem fst_insertCookie {m : List ((String × String × String) × Gtx.Cookie)}
    {c : Gtx.Cookie} (h : ∀ p ∈ m, p.1 = Gtx.cookieKey p.2) :
    ∀ p ∈ Gtx.insertCookie m c, p.1 = Gtx.cookieKey p.2 := by
  intro p hp
  rcases mem_insertCookie hp with hp | ⟨hp, _⟩
  · rw [hp]
  · exact h p hp

/-- Folding dict insertions preserves key distinctness. -/
theorem foldl_insertCookie_nodup :
    ∀ (xs : List Gtx.Cookie) (m : List ((String × String × String) × Gtx.Cookie)),
      (m.map (fun p => p.1)).Nodup →
      ((xs.foldl Gtx.insertCookie m).map (fun p => p.1)).Nodup := by
  intro xs
  induction xs with
  | nil => intro m h; exact h
  | cons x rest ih =>
    intro m h
    exact ih (Gtx.insertCookie m x) (nodup_insertCookie h)

/-- Folding dict insertions preserves the stored-key invariant. -/
theorem foldl_insertCookie_fst :
    ∀ (xs : List Gtx.Cookie) (m : List ((String × String × String) × Gtx.Cookie)),
      (∀ p ∈ m, p.1 = Gtx.cookieKey p.2) →
      ∀ p ∈ xs.foldl Gtx.insertCookie m, p.1 = Gtx.cookieKey p.2 := by
  intro xs
  induction xs with
  | nil => intro m h; exact h
  | cons x rest ih =>
    intro m h
    exact ih (Gtx.insertCookie m x) (fst_insertCookie h)

/-- Every entry after the fold comes from the accumulator or from the folded
cookie list. -/
theorem foldl_insertCookie_mem_src :
    ∀ (xs : List Gtx.Cookie) (m : List ((String × String × String) × Gtx.Cookie))
      (p : (String × String × String) × Gtx.Cookie),
      p ∈ xs.foldl Gtx.insertCookie m → p ∈ m ∨ p.2 ∈ xs := by
  intro xs
  induction xs with
  | nil => intro m p h; exact Or.inl h
  | cons x rest ih =>
    intro m p h
    rcases ih (Gtx.insertCookie m x) p h with h | h
    · rcases mem_insertCookie h with h | ⟨h, _⟩
      · right; rw [h]; exact List.mem_cons_self x rest
      · exact Or.inl h
    · right; exact List.mem_cons_of_mem x h

/-- Keys present in the accumulator survive the whole fold. -/
theorem foldl_insertCookie_keys_mono :
    ∀ (xs : List Gtx.Cookie) (m : List ((String × String × String) × Gtx.Cookie))
      (k : String × String × String),
      k ∈ m.map (fun p => p.1) →
      k ∈ (xs.foldl Gtx.insertCookie m).map (fun p => p.1) := by
  intro xs
  induction xs with
  | nil => intro m k h; exact h
  | cons x rest ih =>
    intro m k h
    exact ih (Gtx.insertCookie m x) k (keys_mono_insertCookie h)

/-- Every folded cookie's key is present afterwards. -/
theorem foldl_insertCookie_key_covers :
    ∀ (xs : List Gtx.Cookie) (m : List ((String × String × String) × Gtx.Cookie))
      (x : Gtx.Cookie), x ∈ xs →
      Gtx.cookieKey x ∈ (xs.foldl Gtx.insertCookie m).map (fun p => p.1) := by
  intro xs
  induction xs with
  | nil => intro m x h; exact absurd h (List.not_mem_nil x)
  | cons x0 rest ih =>
    intro m x h
    rcases List.mem_cons.mp h with h | h
    · rw [h]
      exact foldl_insertCookie_keys_mono rest (Gtx.insertCookie m x0)
        (Gtx.cookieKey x0) (key_mem_insertCookie m x0)
    · exact ih (Gtx.insertCookie m x0) x h

/-- After folding the seeded cookies, every entry either carries a seeded
cookie or is an untouched accumulator entry whose key collides with no seeded
cookie. -/
theorem foldl_insertCookie_later_wins :
    ∀ (ss : List Gtx.Cookie) (m : List ((String × String × String) × Gtx.Cookie))
      (p : (String × String × String) × Gtx.Cookie),
      p ∈ ss.foldl Gtx.insertCookie m →
      p.2 ∈ ss ∨ (p ∈ m ∧ ∀ s ∈ ss, p.1 ≠ Gtx.cookieKey s) := by
  intro ss
  induction ss with
  | nil =>
    intro m p h
    exact Or.inr ⟨h, by intro s hs; exact absurd hs (List.not_mem_nil s)⟩
  | cons s0 rest ih =>
    intro m p h
    rcases ih (Gtx.insertCookie m s0) p h with h | ⟨hmem, hkeys⟩
    · exact Or.inl (List.mem_cons_of_mem s0 h)
    · rcases mem_insertCookie hmem with hp | ⟨hp, hk⟩
      · left; rw [hp]; exact List.mem_cons_self s0 rest
      · right
        refine ⟨hp, ?_⟩
        intro s hs
        rcases List.mem_cons.mp hs with hs | hs
        · rw [hs]; exact hk
        · exact hkeys s hs

/-- C3: for every pair of cookie lists (cache-file cookies, then
environment-seeded cookies), the merged set has pairwise-distinct
(domain, path, name) keys, consists only of input records, represents every
input key, and on any key collision with a seeded record the surviving record
is a seeded one (the later-applied source wins). -/
theorem mergeCookies_dedup_env_wins (cached seeded : List Gtx.Cookie) :
    ((Gtx.mergeCookies cached seeded).map Gtx.cookieKey).Nodup ∧
    (∀ c ∈ Gtx.mergeCookies cached seeded, c ∈ cached ∨ c ∈ seeded) ∧
    (∀ x, (x ∈ cached ∨ x ∈ seeded) →
      ∃ c ∈ Gtx.mergeCookies cached seeded, Gtx.cookieKey c = Gtx.cookieKey x) ∧
    (∀ c ∈ Gtx.mergeCookies cached seeded, ∀ s ∈ seeded,
      Gtx.cookieKey c = Gtx.cookieKey s → c ∈ seeded) := by
  have hfst : ∀ p ∈ (cached ++ seeded).foldl Gtx.insertCookie [],
      p.1 = Gtx.cookieKey p.2 :=
    foldl_insertCookie_fst (cached ++ seeded) [] (by intro p hp; cases hp)
  have hmapeq :
      (Gtx.mergeCookies cached seeded).map Gtx.cookieKey
        = ((cached ++ seeded).foldl Gtx.insertCookie []).map (fun p => p.1) := by
    unfold Gtx.mergeCookies
    rw [List.map_map]
    refine List.map_congr_left ?_
    intro p hp
    simp only [Function.comp]
    exact (hfst p hp).symm
  refine ⟨?_, ?_, ?_, ?_⟩
  · rw [hmapeq]
    exact foldl_insertCookie_nodup (cached ++ seeded) [] (by simp)
  · intro c hc
    rcases List.mem_map.mp hc with ⟨p, hp, hpc⟩
    rcases foldl_insertCookie_mem_src (cached ++ seeded) [] p hp with h | h
    · cases h
    · rw [← hpc]
      exact List.mem_append.mp h
  · intro x hx
    have hx2 : x ∈ cached ++ seeded := List.mem_append.mpr hx
    have hk := foldl_insertCookie_key_covers (cached ++ seeded) [] x hx2
    rcases List.mem_map.mp hk with ⟨p, hp, hpk⟩
    refine ⟨p.2, List.mem_map.mpr ⟨p, hp, rfl⟩, ?_⟩
    rw [← hfst p hp, hpk]
  · intro c hc s hs hkey
    rcases List.mem_map.mp hc with ⟨p, hp, hpc⟩
    have hsplit : (cached ++ seeded).foldl Gtx.insertCookie []
        = seeded.foldl Gtx.insertCookie (cached.foldl Gtx.insertCookie []) :=
      List.foldl_append Gtx.insertCookie [] cached seeded
    rw [hsplit] at hp
    rcases foldl_insertCookie_later_wins seeded
        (cached.foldl Gtx.insertCookie []) p hp with h | ⟨hmem, hkeys⟩
    · rw [← hpc]; exact h
    · exfalso
      have hpfst : p.1 = Gtx.cookieKey p.2 :=
        foldl_insertCookie_fst cached [] (by intro q hq; cases hq) p hmem
      have : p.1 = Gtx.cookieKey s := by rw [hpfst, hpc, hkey]
      exact hkeys s hs this

/-- C3 witness: merging a cached record with a seeded record sharing its
(domain, path, name) key leaves the seeded record as the survivor. -/
theorem mergeCookies_dedup_env_wins_witness :
    ({ name := "session", value := "new", domain := ".gtxgaming.co.uk",
       path := "/" } : Gtx.Cookie)
      ∈ [({ name := "session", value := "new", domain := ".gtxgaming.co.uk",
            path := "/" } : Gtx.Cookie)] :=
  (mergeCookies_dedup_env_wins
      [{ name := "session", value := "old", domain := ".gtxgaming.co.uk", path := "/" }]
      [{ name := "session", value := "new", domain := ".gtxgaming.co.uk", path := "/" }]).2.2.2
    { name := "session", value := "new", domain := ".gtxgaming.co.uk", path := "/" }
    (by decide)
    { name := "session", value := "new", domain := ".gtxgaming.co.uk", path := "/" }
    (by decide) rfl
